import Mathlib

/-!
Verification of the RSI signal bot (Collablynetwork/RSI4h1m).

The definitions below are a shallow embedding of `src/strategy.js`, the module
imported by `src/index.js`.  The repository also contains an earlier variant of
the same module, `src/unnamed/part_000`; the pieces of that variant that the
claims reference are embedded under the `V0` suffix.

Modelling conventions:
the one tracked symbol's mutable module state (`sellPrices[symbol]`,
`bottomPrices[symbol]`, `entryPrices[symbol]`, `lastNotificationTimes[symbol]`)
becomes the structure `SymState`, with `Option` marking an absent key.
JavaScript numbers are modelled as rationals; timestamps are rationals counting
minutes, and `moment.diff(.., minutes)` is the floor of the difference
(truncation, which agrees with floor on the non-negative differences that
occur).  A JavaScript sweep that would throw (dereferencing an absent
`entryPrices[symbol]`) is `none`.  Calls to the collaborators (log appends,
Telegram send/edit) are recorded as an `Event` list in program order; the
result of `sendTelegramMessage` (the message id, or no handle when the send
failed) is an `Option Nat` input to the sweep.
-/

namespace RSIBot

/-- `RSI_PERIOD` from strategy.js line 11. -/
def RSI_PERIOD : Nat := 14

/-- `RSI_THRESHOLD_15m` from strategy.js line 12. -/
def RSI_THRESHOLD_15m : ℚ := 10

/-- `RSI_THRESHOLD_1m` from strategy.js line 13. -/
def RSI_THRESHOLD_1m : ℚ := 30

/-- JavaScript `a < b` where `a` may be `null` (which coerces to 0). -/
def jsLt (a : Option ℚ) (b : ℚ) : Bool := decide (a.getD 0 < b)

/-- JavaScript `a > b` where `a` may be `null` (which coerces to 0). -/
def jsGt (a : Option ℚ) (b : ℚ) : Bool := decide (b < a.getD 0)

/-- JavaScript `x.toFixed(8)` read back as a number: rounding to 8 decimal
places, half away from zero for the positive prices that occur. -/
def toFixed8 (x : ℚ) : ℚ := (⌊x * 100000000 + 1/2⌋ : ℚ) / 100000000

/-- The `for (let i = 1; i < period; i++)` loop of `calculateRSI`
(strategy.js lines 41-47): accumulates `(gains, losses)` over the deltas
`prices[i] - prices[i-1]` for `i = 1 .. period-1`. -/
def gainsLosses (prices : List ℚ) (period : Nat) : ℚ × ℚ :=
  (List.range (period - 1)).foldl
    (fun gl i =>
      let change := prices.getD (i + 1) 0 - prices.getD i 0
      if 0 < change then (gl.1 + change, gl.2) else (gl.1, gl.2 - change))
    (0, 0)

/-- `calculateRSI` (strategy.js lines 38-56).  Returns `none` (`null`) when
fewer than `period` prices are supplied. -/
def calculateRSI (prices : List ℚ) (period : Nat := RSI_PERIOD) : Option ℚ :=
  if prices.length < period then none
  else
    let gl := gainsLosses prices period
    let avgGain := gl.1 / (period : ℚ)
    let avgLoss := gl.2 / (period : ℚ)
    if avgLoss = 0 then some 100
    else some (100 - 100 / (1 + avgGain / avgLoss))

/-- One collaborator call made by a sweep, in program order. -/
inductive Event where
  /-- `logRSIAndPrice` appended a row to rsi_data.csv. -/
  | logRSI : Event
  /-- `sendTelegramMessage` dispatched a new-signal notification; the payload
  is the returned message id (`none` when the send failed). -/
  | newSignal : Option Nat → Event
  /-- `editTelegramMessage` edited the notification with the given handle. -/
  | editMsg : Option Nat → Event
  /-- `logBuySignal` appended a row to buy_signals.csv. -/
  | logBuySignal : Event
deriving Repr, DecidableEq

/-- The record stored in `sellPrices[symbol]` (strategy.js line 207); the
`entryPrices` field of that record aliases the global `entryPrices[symbol]`
array, so it is kept once, in `SymState.entries`. -/
structure SigInfo where
  sellPrice : ℚ
  messageId : Option Nat
  buyTime : ℚ
deriving Repr, DecidableEq

/-- The per-symbol slice of the module state of strategy.js: `none` models the
key being absent from the corresponding global object. -/
structure SymState where
  /-- `sellPrices[symbol]` -/
  signal : Option SigInfo
  /-- `bottomPrices[symbol]` -/
  bottom : Option ℚ
  /-- `entryPrices[symbol]` -/
  entries : Option (List ℚ)
  /-- `lastNotificationTimes[symbol]` -/
  lastNotified : Option ℚ
deriving Repr, DecidableEq

/-- The state before any sweep has touched the symbol. -/
def initState : SymState := ⟨none, none, none, none⟩

/-- Lines 189-208 of strategy.js: record the notification time, push the first
entry price, fix the sell price from the head of the entry list, store the
signal record and the bottom price.  Events: the RSI log row (line 162,
already emitted) then the new-signal send (line 205). -/
def openPosition (s : SymState) (currentPrice now : ℚ) (sendResult : Option Nat) :
    SymState × List Event :=
  let es := currentPrice :: s.entries.getD []
  let sellPrice := toFixed8 (es.headD 0 * (1.011 : ℚ))
  ({ signal := some { sellPrice := sellPrice, messageId := sendResult, buyTime := now },
     bottom := some currentPrice,
     entries := some es,
     lastNotified := some now },
   [Event.logRSI, Event.newSignal sendResult])

/-- `handleRSI` (strategy.js lines 151-210) for one symbol.  `prices15m` and
`prices1m` are the two candlestick fetch results (`none` = fetch failed);
`sendResult` is what `sendTelegramMessage` would return if called.  The result
is `none` when the JavaScript throws (reading `entryPrices[symbol].length`
with the key absent, a state shown unreachable below). -/
def handleRSI (s : SymState) (prices15m prices1m : Option (List ℚ))
    (now : ℚ) (sendResult : Option Nat) : Option (SymState × List Event) :=
  match prices15m, prices1m with
  | some p15, some p1 =>
    match p1.getLast? with
    | none =>
        -- `currentPrice` is `undefined`; every comparison against it is false,
        -- so after the RSI log row nothing further happens
        some (s, [Event.logRSI])
    | some currentPrice =>
      match s.signal with
      | some sig =>
        if currentPrice < sig.sellPrice then
          match s.entries with
          | none => none  -- JavaScript throws on `entryPrices[symbol].length`
          | some es =>
            if es.length = 0 ∨ currentPrice < es.headD 0 then
              some ({ s with entries := some (currentPrice :: es) },
                    [Event.logRSI, Event.editMsg sig.messageId])
            else some (s, [Event.logRSI])
        else some (s, [Event.logRSI])
      | none =>
        if jsLt (calculateRSI p15) RSI_THRESHOLD_15m && jsGt (calculateRSI p1) RSI_THRESHOLD_1m then
          match s.lastNotified with
          | some t =>
            if ⌊now - t⌋ < 30 then some (s, [Event.logRSI])
            else some (openPosition s currentPrice now sendResult)
          | none => some (openPosition s currentPrice now sendResult)
        else some (s, [Event.logRSI])
  | _, _ => some (s, [])

/-- The body of the `checkTargetAchieved` loop (strategy.js lines 213-247) for
one symbol.  Note: this variant never writes `bottomPrices[symbol]`. -/
def checkTargetAchieved (s : SymState) (prices : Option (List ℚ)) :
    SymState × List Event :=
  match s.signal with
  | none => (s, [])
  | some sig =>
    match prices with
    | none => (s, [])
    | some ps =>
      match ps.getLast? with
      | none => (s, [])
      | some currentPrice =>
        if sig.sellPrice ≤ currentPrice then
          ({ signal := none, bottom := none, entries := none,
             lastNotified := s.lastNotified },
           [Event.editMsg sig.messageId, Event.logBuySignal])
        else (s, [])

/-- The record stored in `sellPrices[symbol]` by the earlier variant
(src/unnamed/part_000, lines 195-201). -/
structure SigInfoV0 where
  buyPrice : ℚ
  sellPrice : ℚ
  messageId : Option Nat
  buyTime : ℚ
deriving Repr, DecidableEq

/-- Per-symbol state of the earlier variant (no entry-price list). -/
structure SymStateV0 where
  signal : Option SigInfoV0
  bottom : Option ℚ
  lastNotified : Option ℚ
deriving Repr, DecidableEq

/-- The body of `checkTargetAchieved` in the earlier variant
(src/unnamed/part_000, lines 207-257): unlike strategy.js it lowers
`bottomPrices[symbol]` (lines 217-220) before the target comparison. -/
def checkTargetAchievedV0 (s : SymStateV0) (prices : Option (List ℚ)) :
    SymStateV0 × List Event :=
  match s.signal with
  | none => (s, [])
  | some sig =>
    match prices with
    | none => (s, [])
    | some ps =>
      match ps.getLast? with
      | none => (s, [])
      | some currentPrice =>
        let bottom' :=
          match s.bottom with
          | some b => if currentPrice < b then some currentPrice else some b
          | none => none
        if sig.sellPrice ≤ currentPrice then
          ({ signal := none, bottom := none, lastNotified := s.lastNotified },
           [Event.editMsg sig.messageId, Event.logBuySignal])
        else ({ s with bottom := bottom' }, [])

/-- One sample of the BTC reference-asset buffer (strategy.js lines 66-69). -/
structure BTCSample where
  price : ℚ
  timestamp : ℚ
deriving Repr, DecidableEq

/-- The 30-minute comparator search of `calculateBTCChanges` (strategy.js
lines 93-100): on a non-empty history, `Array.find` scans the oldest-first
buffer for the first sample whose timestamp `isSameOrBefore` thirty minutes
ago. -/
def find30mSample (history : List BTCSample) (now : ℚ) : Option BTCSample :=
  if 0 < history.length then
    history.find? (fun e => decide (e.timestamp ≤ now - 30))
  else none

/-- Spec-side: the sum of the positive deltas among the first `k` consecutive
deltas of the sequence. -/
def specGains (prices : List ℚ) (k : Nat) : ℚ :=
  ∑ i ∈ Finset.range k, max (prices.getD (i + 1) 0 - prices.getD i 0) 0

/-- Spec-side: the sum of the magnitudes of the negative deltas among the
first `k` consecutive deltas of the sequence. -/
def specLosses (prices : List ℚ) (k : Nat) : ℚ :=
  ∑ i ∈ Finset.range k, max (prices.getD i 0 - prices.getD (i + 1) 0) 0

/-- The indicator exactly as claim C4 words it: on at least `period+1` prices,
gains and losses are summed over the first 14 consecutive deltas and each sum
is divided by 14. -/
def claimedRSI14 (prices : List ℚ) : Option ℚ :=
  if prices.length < RSI_PERIOD + 1 then none
  else
    let avgGain := specGains prices RSI_PERIOD / (RSI_PERIOD : ℚ)
    let avgLoss := specLosses prices RSI_PERIOD / (RSI_PERIOD : ℚ)
    if avgLoss = 0 then some 100
    else some (100 - 100 / (1 + avgGain / avgLoss))

/-- The amended indicator spec: identical to `claimedRSI14` except that, as the
source loop `for (let i = 1; i < period; i++)` does, only the first
`period - 1 = 13` consecutive deltas are summed (each sum still divided by
14). -/
def amendedRSI (prices : List ℚ) : Option ℚ :=
  if prices.length < RSI_PERIOD + 1 then none
  else
    let avgGain := specGains prices (RSI_PERIOD - 1) / (RSI_PERIOD : ℚ)
    let avgLoss := specLosses prices (RSI_PERIOD - 1) / (RSI_PERIOD : ℚ)
    if avgLoss = 0 then some 100
    else some (100 - 100 / (1 + avgGain / avgLoss))

/-- The price sequence refuting claim C4: thirteen flat deltas followed by a
drop on the fourteenth delta, which the source loop never reads. -/
def fourteenthDeltaDrop : List ℚ := List.replicate 14 1 ++ [0]

/-- A fourteen-element strictly increasing price sequence. -/
def incFourteen : List ℚ := [1, 2, 3, 4, 5, 6, 7, 8, 9, 10, 11, 12, 13, 14]

/-- The raise condition of strategy.js line 183: 15-minute RSI below 10 and
1-minute RSI above 30, with the JavaScript null-coercion semantics. -/
def raiseCond (p15 p1 : List ℚ) : Bool :=
  jsLt (calculateRSI p15) RSI_THRESHOLD_15m && jsGt (calculateRSI p1) RSI_THRESHOLD_1m

/-- The cooldown gate of strategy.js line 187: a new signal is permitted
unless a previous notification time exists whose distance to `now`, truncated
to whole minutes, is under 30. -/
def cooldownOk (lastN : Option ℚ) (now : ℚ) : Bool :=
  match lastN with
  | none => true
  | some t => !(decide (⌊now - t⌋ < 30))

/-- Number of new-signal notifications among the recorded events. -/
def newSigCount (evs : List Event) : Nat :=
  evs.countP (fun e => match e with | Event.newSignal _ => true | _ => false)

/-- One scheduler-driven sweep touching the symbol: a detection sweep
(`handleRSI`) with its fetch results and send outcome, or a target-check sweep
(`checkTargetAchieved`) with its fetch result. -/
inductive Op where
  | detect : Option (List ℚ) → Option (List ℚ) → ℚ → Option Nat → Op
  | target : Option (List ℚ) → Op

/-- Apply one sweep to the symbol's state. -/
def applyOp (s : SymState) : Op → Option (SymState × List Event)
  | Op.detect p15 p1 now send => handleRSI s p15 p1 now send
  | Op.target prices => some (checkTargetAchieved s prices)

/-- The states a symbol can be in after any sequence of sweeps of the run. -/
inductive Reachable : SymState → Prop where
  | init : Reachable initState
  | step {s s' : SymState} {op : Op} {evs : List Event} :
      Reachable s → applyOp s op = some (s', evs) → Reachable s'

/-- A sequence of sweeps during which the position stays open (its lifetime):
every intermediate state still has an active signal. -/
inductive ActiveSteps : SymState → List Op → SymState → Prop where
  | done (s : SymState) : ActiveSteps s [] s
  | cons {s s' s'' : SymState} {op : Op} {ops : List Op} {evs : List Event} :
      applyOp s op = some (s', evs) → s'.signal ≠ none →
      ActiveSteps s' ops s'' → ActiveSteps s (op :: ops) s''

/-- A fourteen-element strictly decreasing sequence: its RSI is 0. -/
def p15dec : List ℚ := [14, 13, 12, 11, 10, 9, 8, 7, 6, 5, 4, 3, 2, 1]

/-- A rising 15-element sequence closing at 100: its RSI is 100. -/
def p1open : List ℚ := [1, 2, 3, 4, 5, 6, 7, 8, 9, 10, 11, 12, 13, 14, 100]

/-- The same sequence closing at 90 instead. -/
def p1dip : List ℚ := [1, 2, 3, 4, 5, 6, 7, 8, 9, 10, 11, 12, 13, 14, 90]

/-- The state after opening a position at price 100 at time 0 with message
id 1: sell target 101.1, entry list [100], bottom 100. -/
def sOpen : SymState :=
  { signal := some { sellPrice := 1011/10, messageId := some 1, buyTime := 0 },
    bottom := some 100, entries := some [100], lastNotified := some 0 }

/-- Like `sOpen` but the notification send failed, so no handle was stored. -/
def sOpenNoHandle : SymState :=
  { signal := some { sellPrice := 1011/10, messageId := none, buyTime := 0 },
    bottom := some 100, entries := some [100], lastNotified := some 0 }

/-- `sOpen` after an averaging-down sweep at price 90. -/
def sAvg : SymState := { sOpen with entries := some [90, 100] }

/-- The state after the position has closed: every per-symbol key deleted
except the notification timestamp. -/
def sClosed : SymState := ⟨none, none, none, some 0⟩

/-- `sOpen` in the earlier variant's state shape. -/
def sOpenV0 : SymStateV0 :=
  { signal := some { buyPrice := 100, sellPrice := 1011/10, messageId := some 1, buyTime := 0 },
    bottom := some 100, lastNotified := some 0 }

/-- A reference-asset buffer holding samples aged 35, 20 and 5 minutes at
time 100, oldest first. -/
def btcHist : List BTCSample := [⟨50000, 65⟩, ⟨50100, 80⟩, ⟨50200, 95⟩]

section IndicatorProofs

/-- The source loop, started from any accumulator, adds the spec-side gain and
loss sums for the same number of deltas. -/
lemma gainsLosses_loop (prices : List ℚ) :
    ∀ (k : Nat) (g l : ℚ),
      (List.range k).foldl
        (fun gl i =>
          let change := prices.getD (i + 1) 0 - prices.getD i 0
          if 0 < change then (gl.1 + change, gl.2) else (gl.1, gl.2 - change))
        (g, l)
      = (g + specGains prices k, l + specLosses prices k) := by
  intro k
  induction k with
  | zero => intro g l; simp [specGains, specLosses]
  | succ n ih =>
    intro g l
    rw [List.range_succ, List.foldl_append, ih]
    simp only [List.foldl_cons, List.foldl_nil, specGains, specLosses,
      Finset.sum_range_succ]
    by_cases hpos : 0 < prices.getD (n + 1) 0 - prices.getD n 0
    · rw [if_pos hpos, max_eq_left hpos.le,
        max_eq_right (by linarith : prices.getD n 0 - prices.getD (n + 1) 0 ≤ 0)]
      exact Prod.ext (by ring) (by ring)
    · rw [if_neg hpos]
      push_neg at hpos
      rw [max_eq_right hpos, max_eq_left (by linarith : 0 ≤ prices.getD n 0 - prices.getD (n + 1) 0)]
      exact Prod.ext (by ring) (by ring)

/-- The accumulated pair of the source loop equals the spec-side sums over the
first `period - 1` deltas. -/
lemma gainsLosses_spec (prices : List ℚ) (period : Nat) :
    gainsLosses prices period
      = (specGains prices (period - 1), specLosses prices (period - 1)) := by
  rw [gainsLosses, gainsLosses_loop]
  simp

end IndicatorProofs

/-- Claim C4, as stated, is false: on this 15-element sequence the code sums
only the first 13 deltas, never sees the drop on the 14th delta, finds zero
average loss and returns 100, while the claimed formula over the first 14
deltas yields 0. -/
theorem rsi_fourteen_delta_cex :
    fourteenthDeltaDrop.length = RSI_PERIOD + 1 ∧
      calculateRSI fourteenthDeltaDrop = some 100 ∧
      claimedRSI14 fourteenthDeltaDrop = some 0 := by
  refine ⟨by simp [fourteenthDeltaDrop, RSI_PERIOD], ?_, ?_⟩
  · simp only [calculateRSI, gainsLosses, RSI_PERIOD, fourteenthDeltaDrop]
    norm_num [List.range_succ, List.replicate]
  · simp only [claimedRSI14, specGains, specLosses, RSI_PERIOD, fourteenthDeltaDrop]
    norm_num [Finset.sum_range_succ, List.replicate]

/-- Claim C4 (amended): for every price sequence of at least `period + 1 = 15`
elements the indicator score equals `100 - 100/(1 + avgGain/avgLoss)` — with
100 when the average loss is zero — where gains and losses are summed over
the first `period - 1 = 13` consecutive deltas of the sequence and each sum
is divided by 14. -/
theorem rsi_uses_thirteen_deltas (prices : List ℚ)
    (h : RSI_PERIOD + 1 ≤ prices.length) :
    calculateRSI prices = amendedRSI prices := by
  have h14 : ¬ prices.length < RSI_PERIOD := by omega
  have h15 : ¬ prices.length < RSI_PERIOD + 1 := by omega
  rw [calculateRSI, amendedRSI, if_neg h14, if_neg h15, gainsLosses_spec]

/-- Witness for `rsi_uses_thirteen_deltas` at a concrete 15-element input. -/
theorem rsi_uses_thirteen_deltas_witness :
    RSI_PERIOD + 1 ≤ fourteenthDeltaDrop.length ∧
      calculateRSI fourteenthDeltaDrop = amendedRSI fourteenthDeltaDrop :=
  ⟨by simp [fourteenthDeltaDrop, RSI_PERIOD],
   rsi_uses_thirteen_deltas fourteenthDeltaDrop
     (by simp [fourteenthDeltaDrop, RSI_PERIOD])⟩

/-- Claim C5, as stated, is false: this 14-element sequence is shorter than
`period + 1 = 15`, yet the code (which only requires `period` prices) returns
the numeric score 100 rather than "unavailable". -/
theorem rsi_length14_returns_score :
    incFourteen.length = RSI_PERIOD ∧ calculateRSI incFourteen = some 100 := by
  refine ⟨by simp [incFourteen, RSI_PERIOD], ?_⟩
  simp only [calculateRSI, gainsLosses, RSI_PERIOD, incFourteen]
  norm_num [List.range_succ]

/-- Claim C5 (amended): for every price sequence shorter than `period = 14`
elements (length at most 13), the indicator calculator returns "unavailable"
(no score); a 14-element sequence already yields a numeric score. -/
theorem rsi_short_input_unavailable (prices : List ℚ)
    (h : prices.length < RSI_PERIOD) :
    calculateRSI prices = none := by
  rw [calculateRSI, if_pos h]

/-- Witness for `rsi_short_input_unavailable` at a concrete two-element
input. -/
theorem rsi_short_input_unavailable_witness :
    ([3, 7] : List ℚ).length < RSI_PERIOD ∧ calculateRSI [3, 7] = none :=
  ⟨by simp [RSI_PERIOD],
   rsi_short_input_unavailable [3, 7] (by simp [RSI_PERIOD])⟩

section ConcreteSteps

/-- The decreasing sequence has RSI 0. -/
lemma rsi_p15dec : calculateRSI p15dec = some 0 := by
  simp only [calculateRSI, gainsLosses, RSI_PERIOD, p15dec]
  norm_num [List.range_succ]

/-- The rising sequence has RSI 100. -/
lemma rsi_p1open : calculateRSI p1open = some 100 := by
  simp only [calculateRSI, gainsLosses, RSI_PERIOD, p1open]
  norm_num [List.range_succ]

/-- Opening sweep: from the initial state, the eligible detection sweep at
time 0 and price 100 opens the position `sOpen`. -/
lemma step_open :
    handleRSI initState (some p15dec) (some p1open) 0 (some 1)
      = some (sOpen, [Event.logRSI, Event.newSignal (some 1)]) := by
  simp only [handleRSI, openPosition, calculateRSI, gainsLosses, jsLt, jsGt, toFixed8,
    initState, sOpen, RSI_PERIOD, RSI_THRESHOLD_15m, RSI_THRESHOLD_1m, p15dec, p1open]
  norm_num [List.range_succ, List.getLast?]

/-- Opening sweep whose notification send failed (no handle returned). -/
lemma step_open_nohandle :
    handleRSI initState (some p15dec) (some p1open) 0 none
      = some (sOpenNoHandle, [Event.logRSI, Event.newSignal none]) := by
  simp only [handleRSI, openPosition, calculateRSI, gainsLosses, jsLt, jsGt, toFixed8,
    initState, sOpenNoHandle, RSI_PERIOD, RSI_THRESHOLD_15m, RSI_THRESHOLD_1m, p15dec, p1open]
  norm_num [List.range_succ, List.getLast?]

/-- Averaging-down sweep: with `sOpen` active, a detection sweep at price 90
prepends the entry and leaves every other field alone. -/
lemma step_avg :
    handleRSI sOpen (some p15dec) (some p1dip) 1 (some 1)
      = some (sAvg, [Event.logRSI, Event.editMsg (some 1)]) := by
  simp only [handleRSI, sOpen, sAvg, p15dec, p1dip]
  norm_num [List.getLast?]

/-- Closing sweep: a target check at price 102 ≥ 101.1 deletes the per-symbol
state but keeps the notification timestamp. -/
lemma step_close :
    checkTargetAchieved sOpen (some [102])
      = (sClosed, [Event.editMsg (some 1), Event.logBuySignal]) := by
  simp only [checkTargetAchieved, sOpen, sClosed]
  norm_num [List.getLast?]

/-- Closing sweep for the handle-less position. -/
lemma step_close_nohandle :
    checkTargetAchieved sOpenNoHandle (some [102])
      = (sClosed, [Event.editMsg none, Event.logBuySignal]) := by
  simp only [checkTargetAchieved, sOpenNoHandle, sClosed]
  norm_num [List.getLast?]

/-- A target check below the sell target changes nothing. -/
lemma step_target_noclose :
    checkTargetAchieved sAvg (some p1dip) = (sAvg, []) := by
  simp only [checkTargetAchieved, sAvg, sOpen, p1dip]
  norm_num [List.getLast?]

end ConcreteSteps

/-- Claim C2 fails on the code: strategy.js never lowers `bottomPrices` after
a position opens (the conditional update exists only in the part_000 variant,
whose detection sweep in turn has no averaging-down), so after opening at 100
and averaging down at 90 the recorded bottom price 100 exceeds the minimum
entry price 90. -/
theorem averaging_down_breaks_bottom_invariant :
    handleRSI initState (some p15dec) (some p1open) 0 (some 1)
        = some (sOpen, [Event.logRSI, Event.newSignal (some 1)])
    ∧ handleRSI sOpen (some p15dec) (some p1dip) 1 (some 1)
        = some (sAvg, [Event.logRSI, Event.editMsg (some 1)])
    ∧ sAvg.signal.isSome = true
    ∧ sAvg.entries = some [90, 100]
    ∧ sAvg.bottom = some 100
    ∧ ¬ ((100 : ℚ) ≤ min 90 100) :=
  ⟨step_open, step_avg, rfl, rfl, rfl, by norm_num⟩

/-- Claim C3 fails on strategy.js: a target-check sweep for the active
position `sOpen` (bottom 100) observing price 90 leaves the bottom price at
100 instead of min 100 90 = 90; the earlier variant part_000 does perform the
update the claim describes. -/
theorem target_check_does_not_update_bottom :
    checkTargetAchieved sOpen (some p1dip) = (sOpen, [])
    ∧ sOpen.bottom = some 100
    ∧ min (100 : ℚ) 90 = 90
    ∧ checkTargetAchievedV0 sOpenV0 (some p1dip)
        = ({ sOpenV0 with bottom := some 90 }, []) := by
  refine ⟨?_, rfl, by norm_num, ?_⟩
  · simp only [checkTargetAchieved, sOpen, p1dip]
    norm_num [List.getLast?]
  · simp only [checkTargetAchievedV0, sOpenV0, p1dip]
    norm_num [List.getLast?]

/-- Claim C9: when either candlestick fetch is unavailable, the detection
sweep returns the symbol's state unchanged (signal, entry prices, bottom
price and cooldown timestamp included) and performs no collaborator call at
all — no log row, no notification. -/
theorem unavailable_data_no_mutation (s : SymState) (p15 p1 : Option (List ℚ))
    (now : ℚ) (send : Option Nat) (h : p15 = none ∨ p1 = none) :
    handleRSI s p15 p1 now send = some (s, []) := by
  rcases h with rfl | rfl
  · cases p1 <;> rfl
  · cases p15 <;> rfl

/-- Witness for `unavailable_data_no_mutation`: a failed 15-minute fetch on an
active position. -/
theorem unavailable_data_no_mutation_witness :
    handleRSI sOpen none (some p1dip) 5 none = some (sOpen, []) :=
  unavailable_data_no_mutation sOpen none (some p1dip) 5 none (Or.inl rfl)

section SweepCharacterization

/-- Every successful detection sweep either leaves the state untouched, only
prepends an entry price to an actively tracked position, or opens a fresh
position. -/
lemma handleRSI_result {s : SymState} {p15 p1 : Option (List ℚ)} {now : ℚ}
    {send : Option Nat} {s' : SymState} {evs : List Event}
    (h : handleRSI s p15 p1 now send = some (s', evs)) :
    s' = s
    ∨ (∃ sig es p, s.signal = some sig ∧ s.entries = some es
        ∧ s' = { s with entries := some (p :: es) })
    ∨ (∃ p, s.signal = none ∧ s' = (openPosition s p now send).1) := by
  unfold handleRSI at h
  split at h
  · -- both price sequences available
    split at h
    · -- no last price: only the log row
      exact Or.inl (by simp_all)
    · -- last price present
      split at h
      · -- active signal
        split at h
        · -- below the sell price
          split at h
          · -- entries absent: the JavaScript throws
            exact absurd h (by simp)
          · -- entries present
            split at h
            · -- averaging-down: prepend the price
              rename_i x2 cp hget x1 sig hsig hlt x0 es hes hcond
              simp only [Option.some.injEq, Prod.mk.injEq] at h
              refine Or.inr (Or.inl ⟨sig, es, cp, hsig, hes, ?_⟩)
              rw [← h.1, hsig]
            · exact Or.inl (by simp_all)
        · exact Or.inl (by simp_all)
      · -- no active signal
        split at h
        · -- raise condition satisfied
          split at h
          · -- a previous notification time exists
            split at h
            · -- cooldown still running: unchanged
              exact Or.inl (by simp_all)
            · -- cooldown expired: open
              simp only [Option.some.injEq] at h
              exact Or.inr (Or.inr ⟨_, ‹s.signal = none›, (congrArg Prod.fst h).symm⟩)
          · -- no previous notification time: open
            simp only [Option.some.injEq] at h
            exact Or.inr (Or.inr ⟨_, ‹s.signal = none›, (congrArg Prod.fst h).symm⟩)
        · -- raise condition not satisfied: only the log row
          exact Or.inl (by simp_all)
  · exact Or.inl (by simp_all)

/-- Every target-check sweep either leaves the state untouched or, when a
signal was active and the target reached, deletes everything except the
notification timestamp. -/
lemma checkTarget_result (s : SymState) (prices : Option (List ℚ)) :
    (checkTargetAchieved s prices).1 = s
    ∨ (s.signal ≠ none
        ∧ (checkTargetAchieved s prices).1
          = ⟨none, none, none, s.lastNotified⟩) := by
  unfold checkTargetAchieved
  split
  · exact Or.inl rfl
  · split
    · exact Or.inl rfl
    · split
      · exact Or.inl rfl
      · split
        · exact Or.inr ⟨by simp [*], rfl⟩
        · exact Or.inl rfl

/-- A target-check sweep never dispatches a new-signal notification. -/
lemma checkTarget_newSigCount (s : SymState) (prices : Option (List ℚ)) :
    newSigCount (checkTargetAchieved s prices).2 = 0 := by
  unfold checkTargetAchieved
  split
  · rfl
  · split
    · rfl
    · split
      · rfl
      · split
        · rfl
        · rfl

/-- In every reachable state, the signal record and the entry-price list are
present or absent together (the open sweep stores both, the close sweep
deletes both). -/
lemma reachable_signal_iff_entries {s : SymState} (h : Reachable s) :
    (s.signal = none ↔ s.entries = none) := by
  induction h with
  | init => simp [initState]
  | @step s s' op evs _ hstep ih =>
    cases op with
    | detect p15 p1 now send =>
      simp only [applyOp] at hstep
      rcases handleRSI_result hstep with rfl | ⟨sig, es, p, hsig, hes, rfl⟩ | ⟨p, hsig, rfl⟩
      · exact ih
      · simp [hsig, hes]
      · simp [openPosition]
    | target prices =>
      simp only [applyOp, Option.some.injEq] at hstep
      have h1 : s' = (checkTargetAchieved s prices).1 := by rw [hstep]
      rcases checkTarget_result s prices with heq | ⟨_, heq⟩
      · rw [h1, heq]; exact ih
      · rw [h1, heq]; simp

/-- An eligible detection sweep — no active signal, raise condition satisfied,
cooldown permitting — takes exactly the open branch. -/
lemma handleRSI_open {s : SymState} {p15 p1 : List ℚ} {now : ℚ}
    {send : Option Nat} {price : ℚ}
    (hsig : s.signal = none) (hprice : p1.getLast? = some price)
    (hraise : raiseCond p15 p1 = true)
    (hcool : cooldownOk s.lastNotified now = true) :
    handleRSI s (some p15) (some p1) now send
      = some (openPosition s price now send) := by
  have hr : (jsLt (calculateRSI p15) RSI_THRESHOLD_15m
      && jsGt (calculateRSI p1) RSI_THRESHOLD_1m) = true := hraise
  rcases hl : s.lastNotified with _ | t
  · simp only [handleRSI, hprice, hsig, hl, hr, if_true]
  · rw [hl] at hcool
    have hc : ¬ (⌊now - t⌋ < 30) := by simpa [cooldownOk] using hcool
    simp only [handleRSI, hprice, hsig, hl, hr, if_true, if_neg hc]

/-- A detection sweep with no active signal but a notification inside the
cooldown window only logs: the state is unchanged and nothing is sent. -/
lemma handleRSI_blocked {s : SymState} {p15 p1 : List ℚ} {now : ℚ}
    {send : Option Nat} {price t : ℚ}
    (hsig : s.signal = none) (hprice : p1.getLast? = some price)
    (ht : s.lastNotified = some t) (hlt : ⌊now - t⌋ < 30) :
    handleRSI s (some p15) (some p1) now send = some (s, [Event.logRSI]) := by
  simp only [handleRSI, hprice, hsig, ht]
  cases hr : (jsLt (calculateRSI p15) RSI_THRESHOLD_15m
      && jsGt (calculateRSI p1) RSI_THRESHOLD_1m)
  · simp
  · simp [if_pos hlt]

/-- The raise condition requires a numeric 1-minute RSI, hence at least 14
prices, hence a last price. -/
lemma raiseCond_getLast {p15 p1 : List ℚ} (h : raiseCond p15 p1 = true) :
    ∃ x, p1.getLast? = some x := by
  have h2 : jsGt (calculateRSI p1) RSI_THRESHOLD_1m = true := by
    have h' := h
    unfold raiseCond at h'
    rw [Bool.and_eq_true] at h'
    exact h'.2
  rcases hc : calculateRSI p1 with _ | r
  · rw [hc] at h2
    simp only [jsGt, Option.getD_none, RSI_THRESHOLD_1m] at h2
    norm_num at h2
  · have hlen : ¬ p1.length < RSI_PERIOD := by
      intro hl
      rw [calculateRSI, if_pos hl] at hc
      cases hc
    have hne : p1 ≠ [] := by
      intro he
      rw [he] at hlen
      simp [RSI_PERIOD] at hlen
    exact Option.isSome_iff_exists.mp (List.getLast?_isSome.mpr hne)

end SweepCharacterization

section OpenAndLifetime

/-- The concrete opening sweep satisfies the raise condition. -/
lemma raise_open_cond : raiseCond p15dec p1open = true := by
  rw [raiseCond, rsi_p15dec, rsi_p1open]
  simp only [jsLt, jsGt, RSI_THRESHOLD_15m, RSI_THRESHOLD_1m, Option.getD_some,
    Bool.and_eq_true, decide_eq_true_eq]
  norm_num

/-- `sOpen` is reachable: one eligible detection sweep from the initial
state. -/
lemma reach_sOpen : Reachable sOpen :=
  @Reachable.step initState sOpen (Op.detect (some p15dec) (some p1open) 0 (some 1))
    [Event.logRSI, Event.newSignal (some 1)] Reachable.init step_open

/-- `sClosed` is reachable: open, then hit the target. -/
lemma reach_sClosed : Reachable sClosed :=
  @Reachable.step sOpen sClosed (Op.target (some [102]))
    [Event.editMsg (some 1), Event.logBuySignal] reach_sOpen
    (congrArg Option.some step_close)

end OpenAndLifetime

/-- Claim C1: from any reachable state with no active signal, an eligible
detection sweep (raise condition satisfied, cooldown permitting) opens a
position whose entry-price list is exactly the one-element list holding the
current price — the close sweep deletes `entryPrices[symbol]`, so no stale
entries survive an earlier open/close cycle. -/
theorem open_sets_entry_list_singleton (s : SymState) (hreach : Reachable s)
    (p15 p1 : List ℚ) (now : ℚ) (send : Option Nat) (price : ℚ)
    (hsig : s.signal = none) (hprice : p1.getLast? = some price)
    (hraise : raiseCond p15 p1 = true)
    (hcool : cooldownOk s.lastNotified now = true) :
    ∃ s', handleRSI s (some p15) (some p1) now send
        = some (s', [Event.logRSI, Event.newSignal send])
      ∧ s'.entries = some [price] := by
  have hent : s.entries = none := (reachable_signal_iff_entries hreach).mp hsig
  refine ⟨(openPosition s price now send).1, ?_, ?_⟩
  · rw [handleRSI_open hsig hprice hraise hcool]
    rfl
  · simp [openPosition, hent]

/-- Witness for `open_sets_entry_list_singleton`, applied after an earlier
position for the same symbol was opened and closed: from `sClosed` (reached by
open at time 0, close at 102), a fresh eligible sweep at time 31 yields entry
list `[100]`. -/
theorem open_sets_entry_list_singleton_witness :
    ∃ s', handleRSI sClosed (some p15dec) (some p1open) 31 (some 2)
        = some (s', [Event.logRSI, Event.newSignal (some 2)])
      ∧ s'.entries = some [100] :=
  open_sets_entry_list_singleton sClosed reach_sClosed p15dec p1open 31 (some 2) 100
    rfl rfl raise_open_cond (by norm_num [cooldownOk, sClosed])

section SignalLifetime

/-- One sweep that keeps the position active also keeps the stored signal
record (sell price included) exactly as it was. -/
lemma signal_preserved_of_step {s s' : SymState} {op : Op} {evs : List Event}
    {sig : SigInfo} (h : applyOp s op = some (s', evs))
    (hs : s.signal = some sig) (h' : s'.signal ≠ none) :
    s'.signal = some sig := by
  cases op with
  | detect p15 p1 now send =>
    simp only [applyOp] at h
    rcases handleRSI_result h with rfl | ⟨sig2, es, p, hsig2, hes, rfl⟩ | ⟨p, hnone, _⟩
    · exact hs
    · simpa using hs
    · rw [hs] at hnone
      cases hnone
  | target prices =>
    simp only [applyOp, Option.some.injEq] at h
    have h1 : s' = (checkTargetAchieved s prices).1 := by rw [h]
    rcases checkTarget_result s prices with heq | ⟨_, heq⟩
    · rw [h1, heq]
      exact hs
    · rw [h1, heq] at h'
      simp at h'

/-- Along any run of sweeps that keeps the position active, the stored signal
record never changes. -/
lemma activeSteps_signal {s sFinal : SymState} {ops : List Op} {sig : SigInfo}
    (h : ActiveSteps s ops sFinal) (hs : s.signal = some sig) :
    sFinal.signal = some sig := by
  induction h with
  | done s => exact hs
  | cons hstep hact _ ih => exact ih (signal_preserved_of_step hstep hs hact)

end SignalLifetime

/-- Claim C7: a position opened at `price` stores sell target
`toFixed8 (price * 1.011)`, and no sequence of detection or target-check
sweeps during which the position stays open ever changes the stored signal
record — the sell target remains pinned to the first entry. -/
theorem sell_target_immutable (s : SymState) (p15 p1 : List ℚ) (now : ℚ)
    (send : Option Nat) (price : ℚ) (s1 : SymState) (evs : List Event)
    (ops : List Op) (sFinal : SymState)
    (hsig : s.signal = none) (hprice : p1.getLast? = some price)
    (hraise : raiseCond p15 p1 = true)
    (hcool : cooldownOk s.lastNotified now = true)
    (hopen : handleRSI s (some p15) (some p1) now send = some (s1, evs))
    (hrun : ActiveSteps s1 ops sFinal) :
    ∃ sig, s1.signal = some sig
      ∧ sig.sellPrice = toFixed8 (price * (1.011 : ℚ))
      ∧ sFinal.signal = some sig := by
  rw [handleRSI_open hsig hprice hraise hcool] at hopen
  simp only [Option.some.injEq] at hopen
  have h1 : s1 = (openPosition s price now send).1 :=
    (congrArg Prod.fst hopen).symm
  have h2 : s1.signal
      = some ⟨toFixed8 (price * (1.011 : ℚ)), send, now⟩ := by
    rw [h1]
    simp [openPosition]
  exact ⟨_, h2, rfl, activeSteps_signal hrun h2⟩

/-- A two-sweep run (averaging-down, then a below-target check) during which
the position stays open. -/
lemma active_run_example : ActiveSteps sOpen
    [Op.detect (some p15dec) (some p1dip) 1 (some 1), Op.target (some p1dip)]
    sAvg :=
  @ActiveSteps.cons sOpen sAvg sAvg (Op.detect (some p15dec) (some p1dip) 1 (some 1))
    [Op.target (some p1dip)] [Event.logRSI, Event.editMsg (some 1)]
    step_avg (by simp [sAvg, sOpen])
    (@ActiveSteps.cons sAvg sAvg sAvg (Op.target (some p1dip)) [] []
      (congrArg Option.some step_target_noclose) (by simp [sAvg, sOpen])
      (ActiveSteps.done sAvg))

/-- Witness for `sell_target_immutable`: the position opened at 100 keeps sell
target `toFixed8 (100 * 1.011)` through an averaging-down sweep and a
below-target check. -/
theorem sell_target_immutable_witness :
    ∃ sig, sOpen.signal = some sig
      ∧ sig.sellPrice = toFixed8 ((100 : ℚ) * (1.011 : ℚ))
      ∧ sAvg.signal = some sig :=
  sell_target_immutable initState p15dec p1open 0 (some 1) 100 sOpen
    [Event.logRSI, Event.newSignal (some 1)]
    [Op.detect (some p15dec) (some p1dip) 1 (some 1), Op.target (some p1dip)]
    sAvg rfl rfl raise_open_cond rfl step_open active_run_example

section CooldownHelpers

/-- A target check that ends with no signal must have taken the close branch:
everything is deleted except the notification timestamp. -/
lemma checkTarget_close_state {s1 s2 : SymState} {prices : Option (List ℚ)}
    {ev2 : List Event} (h : checkTargetAchieved s1 prices = (s2, ev2))
    (h2 : s2.signal = none) (hs : s1.signal ≠ none) :
    s2 = ⟨none, none, none, s1.lastNotified⟩ := by
  rcases checkTarget_result s1 prices with heq | ⟨_, heq⟩
  · rw [h] at heq
    exact absurd (heq ▸ h2) hs
  · rw [h] at heq
    exact heq

/-- The concrete post-close sweep at time 10 is inside the 30-minute cooldown
window and only logs. -/
lemma step_blocked :
    handleRSI sClosed (some p15dec) (some p1open) 10 (some 3)
      = some (sClosed, [Event.logRSI]) :=
  handleRSI_blocked rfl rfl rfl (by norm_num)

end CooldownHelpers

/-- Claim C6: an eligible opening sweep, a closing target check, and a second
eligible detection sweep produce exactly one new-signal notification when the
second sweep comes less than 30 minutes after the first raised its signal,
and exactly two when it comes at or after cooldown expiry. -/
theorem cooldown_single_notification
    (s s1 s2 s3 : SymState) (ev1 ev2 ev3 : List Event)
    (p15a p1a pT p15b p1b : List ℚ) (t1 t2 : ℚ) (pa : ℚ) (send1 send3 : Option Nat)
    (hsig : s.signal = none)
    (hpa : p1a.getLast? = some pa)
    (hraise1 : raiseCond p15a p1a = true)
    (hcool : cooldownOk s.lastNotified t1 = true)
    (hopen : handleRSI s (some p15a) (some p1a) t1 send1 = some (s1, ev1))
    (hclose : checkTargetAchieved s1 (some pT) = (s2, ev2))
    (hclosed : s2.signal = none)
    (hraise2 : raiseCond p15b p1b = true)
    (hsweep : handleRSI s2 (some p15b) (some p1b) t2 send3 = some (s3, ev3)) :
    newSigCount ev1 + newSigCount ev2 + newSigCount ev3
      = if t2 - t1 < 30 then 1 else 2 := by
  rw [handleRSI_open hsig hpa hraise1 hcool] at hopen
  simp only [Option.some.injEq] at hopen
  have hs1 : s1 = (openPosition s pa t1 send1).1 := (congrArg Prod.fst hopen).symm
  have hev1 : ev1 = [Event.logRSI, Event.newSignal send1] :=
    (congrArg Prod.snd hopen).symm
  have hc1 : newSigCount ev1 = 1 := by rw [hev1]; rfl
  have hs1sig : s1.signal ≠ none := by rw [hs1]; simp [openPosition]
  have hln : s1.lastNotified = some t1 := by rw [hs1]; simp [openPosition]
  have hs2 : s2 = ⟨none, none, none, s1.lastNotified⟩ :=
    checkTarget_close_state hclose hclosed hs1sig
  have hc2 : newSigCount ev2 = 0 := by
    have h0 := checkTarget_newSigCount s1 (some pT)
    rw [hclose] at h0
    exact h0
  have hs2ln : s2.lastNotified = some t1 := by rw [hs2]; exact hln
  obtain ⟨pb, hpb⟩ := raiseCond_getLast hraise2
  by_cases hlt : t2 - t1 < 30
  · have hfl : ⌊t2 - t1⌋ < (30 : ℤ) := Int.floor_lt.mpr (by exact_mod_cast hlt)
    rw [handleRSI_blocked hclosed hpb hs2ln hfl] at hsweep
    simp only [Option.some.injEq] at hsweep
    have hev3 : ev3 = [Event.logRSI] := (congrArg Prod.snd hsweep).symm
    rw [if_pos hlt, hc1, hc2, hev3]
    rfl
  · have h30 : (30 : ℚ) ≤ t2 - t1 := not_lt.mp hlt
    have hge : ¬ (⌊t2 - t1⌋ < (30 : ℤ)) :=
      not_lt.mpr (Int.le_floor.mpr (by exact_mod_cast h30))
    have hcool2 : cooldownOk s2.lastNotified t2 = true := by
      rw [hs2ln]
      simp [cooldownOk, hge]
    rw [handleRSI_open hclosed hpb hraise2 hcool2] at hsweep
    simp only [Option.some.injEq] at hsweep
    have hev3 : ev3 = [Event.logRSI, Event.newSignal send3] :=
      (congrArg Prod.snd hsweep).symm
    rw [if_neg hlt, hc1, hc2, hev3]
    rfl

/-- Witness for `cooldown_single_notification`: open at time 0, close at 102,
second eligible sweep at time 10 — inside the cooldown, so one notification
in total. -/
theorem cooldown_single_notification_witness :
    newSigCount [Event.logRSI, Event.newSignal (some 1)]
      + newSigCount [Event.editMsg (some 1), Event.logBuySignal]
      + newSigCount [Event.logRSI]
      = if (10 : ℚ) - 0 < 30 then 1 else 2 :=
  cooldown_single_notification initState sOpen sClosed sClosed
    [Event.logRSI, Event.newSignal (some 1)]
    [Event.editMsg (some 1), Event.logBuySignal] [Event.logRSI]
    p15dec p1open [102] p15dec p1open 0 10 100 (some 1) (some 3)
    rfl rfl raise_open_cond rfl step_open step_close rfl raise_open_cond
    step_blocked

/-- Claim C10: the notification timestamp is recorded even when the send
returns no handle — the opened position stores `messageId = none` yet
`lastNotified = t1`, and after the position closes a raise-eligible sweep
within the cooldown window is still suppressed (state unchanged, log row
only). -/
theorem lastNotified_recorded_despite_send_failure
    (s s1 s2 : SymState) (ev1 ev2 : List Event)
    (p15a p1a pT p15b p1b : List ℚ) (t1 t2 : ℚ) (pa : ℚ) (send2 : Option Nat)
    (hsig : s.signal = none)
    (hpa : p1a.getLast? = some pa)
    (hraise1 : raiseCond p15a p1a = true)
    (hcool : cooldownOk s.lastNotified t1 = true)
    (hopen : handleRSI s (some p15a) (some p1a) t1 none = some (s1, ev1))
    (hclose : checkTargetAchieved s1 (some pT) = (s2, ev2))
    (hclosed : s2.signal = none)
    (hraise2 : raiseCond p15b p1b = true)
    (hcd : t2 - t1 < 30) :
    s1.lastNotified = some t1
      ∧ (∃ sig, s1.signal = some sig ∧ sig.messageId = none)
      ∧ handleRSI s2 (some p15b) (some p1b) t2 send2
          = some (s2, [Event.logRSI]) := by
  rw [handleRSI_open hsig hpa hraise1 hcool] at hopen
  simp only [Option.some.injEq] at hopen
  have hs1 : s1 = (openPosition s pa t1 none).1 := (congrArg Prod.fst hopen).symm
  have hln : s1.lastNotified = some t1 := by rw [hs1]; simp [openPosition]
  have hs1sig : s1.signal ≠ none := by rw [hs1]; simp [openPosition]
  have hs2 : s2 = ⟨none, none, none, s1.lastNotified⟩ :=
    checkTarget_close_state hclose hclosed hs1sig
  have hs2ln : s2.lastNotified = some t1 := by rw [hs2]; exact hln
  obtain ⟨pb, hpb⟩ := raiseCond_getLast hraise2
  have hfl : ⌊t2 - t1⌋ < (30 : ℤ) := Int.floor_lt.mpr (by exact_mod_cast hcd)
  refine ⟨hln, ⟨⟨toFixed8 (pa * (1.011 : ℚ)), none, t1⟩, ?_, rfl⟩, ?_⟩
  · rw [hs1]
    simp [openPosition]
  · exact handleRSI_blocked hclosed hpb hs2ln hfl

/-- Witness for `lastNotified_recorded_despite_send_failure`: the send fails
at the open at time 0; the close at 102 and a second eligible sweep at time
10 still only log. -/
theorem lastNotified_recorded_despite_send_failure_witness :
    sOpenNoHandle.lastNotified = some 0
      ∧ (∃ sig, sOpenNoHandle.signal = some sig ∧ sig.messageId = none)
      ∧ handleRSI sClosed (some p15dec) (some p1open) 10 (some 7)
          = some (sClosed, [Event.logRSI]) :=
  lastNotified_recorded_despite_send_failure initState sOpenNoHandle sClosed
    [Event.logRSI, Event.newSignal none] [Event.editMsg none, Event.logBuySignal]
    p15dec p1open [102] p15dec p1open 0 10 100 (some 7)
    rfl rfl raise_open_cond rfl step_open_nohandle step_close_nohandle rfl
    raise_open_cond (by norm_num)

section ReferenceAsset

/-- On a buffer sorted oldest first, the linear scan returns the oldest sample
at or beyond the cutoff, and returns nothing exactly when no sample is that
old. -/
lemma find?_oldest (cutoff : ℚ) :
    ∀ (history : List BTCSample),
      history.Pairwise (fun a b => a.timestamp ≤ b.timestamp) →
      (∀ e, history.find? (fun e => decide (e.timestamp ≤ cutoff)) = some e →
          e ∈ history ∧ e.timestamp ≤ cutoff
            ∧ ∀ e' ∈ history, e'.timestamp ≤ cutoff → e.timestamp ≤ e'.timestamp)
      ∧ (history.find? (fun e => decide (e.timestamp ≤ cutoff)) = none →
          ∀ e ∈ history, ¬ e.timestamp ≤ cutoff) := by
  intro history
  induction history with
  | nil =>
    intro _
    constructor
    · intro e he
      simp at he
    · intro _ e he
      simp at he
  | cons a as ih =>
    intro hp
    rw [List.pairwise_cons] at hp
    obtain ⟨ha, htl⟩ := hp
    by_cases hpa : a.timestamp ≤ cutoff
    · constructor
      · intro e he
        rw [List.find?_cons_of_pos _ (by simpa using hpa)] at he
        obtain rfl : a = e := by injection he
        refine ⟨List.mem_cons_self a as, hpa, ?_⟩
        intro e' he' _
        rcases List.mem_cons.mp he' with rfl | hmem
        · exact le_refl _
        · exact ha e' hmem
      · intro hn
        rw [List.find?_cons_of_pos _ (by simpa using hpa)] at hn
        cases hn
    · have hstep : (a :: as).find? (fun e => decide (e.timestamp ≤ cutoff))
          = as.find? (fun e => decide (e.timestamp ≤ cutoff)) :=
        List.find?_cons_of_neg _ (by simpa using hpa)
      obtain ⟨ih1, ih2⟩ := ih htl
      constructor
      · intro e he
        rw [hstep] at he
        obtain ⟨hmem, hle, hmin⟩ := ih1 e he
        refine ⟨List.mem_cons_of_mem a hmem, hle, ?_⟩
        intro e' he' hq
        rcases List.mem_cons.mp he' with rfl | hmem'
        · exact absurd hq hpa
        · exact hmin e' hmem' hq
      · intro hn
        rw [hstep] at hn
        intro e he
        rcases List.mem_cons.mp he with rfl | hmem
        · exact hpa
        · exact ih2 hn e hmem

end ReferenceAsset

/-- Claim C8: on an oldest-first buffer, the 30-minute comparator search
returns the oldest retained sample whose age is at least 30 minutes
(timestamp at most `now - 30`), and reports "unavailable" exactly when no
retained sample is that old. -/
theorem btc_30m_oldest_qualifying_sample (history : List BTCSample) (now : ℚ)
    (hsorted : history.Pairwise (fun a b => a.timestamp ≤ b.timestamp)) :
    (∀ e, find30mSample history now = some e →
        e ∈ history ∧ e.timestamp ≤ now - 30
          ∧ ∀ e' ∈ history, e'.timestamp ≤ now - 30 → e.timestamp ≤ e'.timestamp)
    ∧ (find30mSample history now = none →
        ∀ e ∈ history, ¬ e.timestamp ≤ now - 30) := by
  cases history with
  | nil =>
    constructor
    · intro e he
      simp [find30mSample] at he
    · intro _ e he
      simp at he
  | cons a as =>
    have hred : find30mSample (a :: as) now
        = (a :: as).find? (fun e => decide (e.timestamp ≤ now - 30)) := by
      simp [find30mSample]
    rw [hred]
    exact find?_oldest (now - 30) (a :: as) hsorted

/-- Witness for `btc_30m_oldest_qualifying_sample` on the spec's scenario: a
buffer with samples aged 35, 20 and 5 minutes at time 100 selects the
35-minute sample (timestamp 65), not the 20-minute one. -/
theorem btc_30m_oldest_qualifying_sample_witness :
    btcHist.Pairwise (fun a b => a.timestamp ≤ b.timestamp)
      ∧ find30mSample btcHist 100 = some ⟨50000, 65⟩
      ∧ (⟨50000, 65⟩ : BTCSample) ∈ btcHist
      ∧ (65 : ℚ) ≤ 100 - 30
      ∧ ∀ e' ∈ btcHist, e'.timestamp ≤ 100 - 30 → (65 : ℚ) ≤ e'.timestamp := by
  have hpw : btcHist.Pairwise (fun a b => a.timestamp ≤ b.timestamp) := by
    norm_num [btcHist, List.pairwise_cons]
  have hfind : find30mSample btcHist 100 = some ⟨50000, 65⟩ := by
    norm_num [find30mSample, btcHist, List.find?]
  obtain ⟨hmem, hle, hmin⟩ :=
    (btc_30m_oldest_qualifying_sample btcHist 100 hpw).1 _ hfind
  exact ⟨hpw, hfind, hmem, hle, hmin⟩

end RSIBot
